import Mathlib

/-!
Verification of the social-media posting pipeline (backend/app).

The definitions below are a shallow embedding of the Python source:
pure computations become Lean functions, DynamoDB rows become structures,
DynamoDB writes become explicit state transformations, and fallible
operations return `Except`.  External effects (HTTP calls, SQS enqueues,
clock reads) are abstracted as parameters so that the control flow of the
source is preserved exactly.
-/

set_option maxHeartbeats 1000000

set_option maxRecDepth 16384

/-- Status of one destination child and of the parent upload request
(`queued` / `processing` / `completed` / `failed`). -/
inductive DestStatus where
  | queued
  | processing
  | completed
  | failed
deriving DecidableEq, Repr

/-- One entry of a destination's `logs` array:
`{timestamp, level, message}`. -/
structure LogEntry where
  timestamp : String
  level : String
  message : String
deriving DecidableEq, Repr

/-- A JSON-ish attribute value used for platform results. -/
inductive JVal where
  | s (v : String)
  | b (v : Bool)
  | n (v : Nat)
deriving DecidableEq, Repr

/-- A parent-row timestamp.  The worker writes `datetime.utcnow().isoformat()`
(a string) into `updated_at`, while the request store writes
`int(datetime.utcnow().timestamp())` (a number); the row can therefore hold
either form. -/
inductive TimeVal where
  | epoch (n : Nat)
  | iso (s : String)
deriving DecidableEq, Repr

/-- Python truthiness of an optional string (`if s:`):
`None` and `""` are falsy. -/
def truthyStr : Option String → Bool
  | none => false
  | some s => s ≠ ""

/-- Python truthiness of an optional integer (`if n:`):
`None` and `0` are falsy. -/
def truthyInt : Option Int → Bool
  | none => false
  | some n => n ≠ 0

/-- Python truthiness of an optional dict (`if d:`):
`None` and `{}` are falsy. -/
def truthyDict : Option (List (String × JVal)) → Bool
  | none => false
  | some d => d ≠ []

/-- Embedding of the status derivation inside
`posting_worker.update_parent_request_status` (posting_worker.py lines
97-110): `has_processing`, `has_failed`, `all_completed` over the children
statuses, then `processing` / `failed` / `completed` / `queued` in that
order. -/
def update_parent_request_status_derive (statuses : List DestStatus) : DestStatus :=
  let has_processing := statuses.any (· == DestStatus.processing)
  let has_failed := statuses.any (· == DestStatus.failed)
  let all_completed := statuses.all (· == DestStatus.completed)
  if has_processing then DestStatus.processing
  else if has_failed then DestStatus.failed
  else if all_completed then DestStatus.completed
  else DestStatus.queued

/-- Embedding of the status derivation inside
`upload_requests.update_overall_status` (upload_requests.py lines 242-251):
`failed` / `processing` / `queued` / `completed` / fallback `processing`,
in that order. -/
def update_overall_status_derive (statuses : List DestStatus) : DestStatus :=
  if statuses.any (· == DestStatus.failed) then DestStatus.failed
  else if statuses.any (· == DestStatus.processing) then DestStatus.processing
  else if statuses.any (· == DestStatus.queued) then DestStatus.queued
  else if statuses.all (· == DestStatus.completed) then DestStatus.completed
  else DestStatus.processing

/-- The single authoritative parent-status rule as written in the
specification (§4.6): `processing` if any child is processing; else
`failed` if any child is failed; else `completed` if all children are
completed; else `queued`.  Stated from the spec's words for comparison
with the two implementations above. -/
def specParentStatusRule (statuses : List DestStatus) : DestStatus :=
  if statuses.any (· == DestStatus.processing) then DestStatus.processing
  else if statuses.any (· == DestStatus.failed) then DestStatus.failed
  else if statuses.all (· == DestStatus.completed) then DestStatus.completed
  else DestStatus.queued

/-- One destination child of an upload request (`DestinationRecord`):
`status`, `created_at`, `updated_at` (iso strings), the `logs` array and
the optional `error` and `result` attributes. -/
structure DestRecord where
  status : DestStatus
  created_at : String
  updated_at : String
  logs : List LogEntry
  error : Option String
  result : Option (List (String × JVal))
deriving DecidableEq, Repr

/-- An upload-request parent row as written by
`upload_requests.create_upload_request`: `request_id`, `user_id`,
`video_url`, `caption`, the `destinations` map (an association list keyed
by `"<platform>:<entity_id>"`), numeric `created_at`, `updated_at`
(string or number, see `TimeVal`), overall `status` and the purge `ttl`. -/
structure UploadRequest where
  request_id : String
  user_id : String
  video_url : String
  caption : String
  destinations : List (String × DestRecord)
  created_at : Nat
  updated_at : TimeVal
  status : DestStatus
  ttl : Nat
deriving DecidableEq, Repr

/-- One SQS job message produced by the intake or by resubmit:
`{request_id, user_id, destination, video_url, caption}` plus the optional
`tiktok_settings` key. -/
structure JobMessage where
  request_id : String
  user_id : String
  destination : String
  video_url : String
  caption : String
  tiktok_settings : Option (List (String × JVal))
deriving DecidableEq, Repr

/-- The DynamoDB path update `SET destinations.#dest.<...>` rewrites the
one child slot named `dest`, leaving sibling slots untouched. -/
def setDest (l : List (String × DestRecord)) (dest : String) (rec' : DestRecord) :
    List (String × DestRecord) :=
  l.map (fun p => if p.1 = dest then (p.1, rec') else p)

/-- Embedding of `posting_worker.update_parent_request_status`
(posting_worker.py lines 71-125): re-read the row, return it unchanged if
it has no destinations, otherwise write the derived overall status and an
iso-format `updated_at` unconditionally.  `nowIso` stands for
`datetime.utcnow().isoformat()` at the time of the write. -/
def update_parent_request_status (req : UploadRequest) (nowIso : String) :
    UploadRequest :=
  if req.destinations = [] then req
  else
    { req with
      status := update_parent_request_status_derive
        (req.destinations.map (fun p => p.2.status)),
      updated_at := TimeVal.iso nowIso }

/-- Embedding of `upload_requests.update_overall_status`
(upload_requests.py lines 224-263): return the row unchanged if it has no
destinations; otherwise derive the overall status and write it together
with a numeric `updated_at` only when it differs from the stored status.
`now` stands for `int(datetime.utcnow().timestamp())` at write time. -/
def update_overall_status (req : UploadRequest) (now : Nat) : UploadRequest :=
  if req.destinations = [] then req
  else
    let overall := update_overall_status_derive
      (req.destinations.map (fun p => p.2.status))
    if req.status ≠ overall then
      { req with status := overall, updated_at := TimeVal.epoch now }
    else req

/-- Embedding of `posting_worker.update_request_status` (posting_worker.py
lines 128-173): replace the child's `status`, `updated_at` and whole
`logs` array, set `error` / `result` only when the passed value is truthy
(otherwise the stored attribute is left as it is), then recompute the
parent status via `update_parent_request_status`.  When the destination
path does not exist the DynamoDB update raises and the surrounding
`except` swallows the error, so the row is returned unchanged. -/
def update_request_status (req : UploadRequest) (destination : String)
    (status : DestStatus) (nowIso : String) (logs : List LogEntry)
    (error : Option String) (result : Option (List (String × JVal)))
    (parentNowIso : String) : UploadRequest :=
  match req.destinations.lookup destination with
  | none => req
  | some rec =>
    let rec' : DestRecord :=
      { rec with
        status := status,
        updated_at := nowIso,
        logs := logs,
        error := if truthyStr error then error else rec.error,
        result := if truthyDict result then result else rec.result }
    let req' := { req with destinations := setDest req.destinations destination rec' }
    update_parent_request_status req' parentNowIso

/-- Embedding of `upload_requests.resubmit_failed_destination`
(upload_requests.py lines 266-342).  `req?` is the `get_upload_request`
read (`none` when the row is absent).  On the error paths the function
raises `ValueError` before any write or enqueue; on success it rewrites
the child slot (status `queued`, fresh single-entry `logs`, `REMOVE`d
`error`), sends exactly one SQS job message, and recomputes the overall
status.  `nowIso` is `datetime.utcnow().isoformat()` and `overallNow` the
numeric timestamp used by `update_overall_status`. -/
def resubmit_failed_destination (req? : Option UploadRequest)
    (destination : String) (nowIso : String) (overallNow : Nat) :
    Except String (UploadRequest × JobMessage) :=
  match req? with
  | none => Except.error "Upload request not found"
  | some req =>
    match req.destinations.lookup destination with
    | none => Except.error "Destination not found"
    | some rec =>
      if rec.status ≠ DestStatus.failed then
        Except.error "Only failed tasks can be resubmitted"
      else
        let entry : LogEntry :=
          { timestamp := nowIso, level := "INFO", message := "Task resubmitted by user" }
        let rec' : DestRecord :=
          { rec with
            status := DestStatus.queued,
            updated_at := nowIso,
            logs := [entry],
            error := none }
        let req' := { req with destinations := setDest req.destinations destination rec' }
        let msg : JobMessage :=
          { request_id := req.request_id, user_id := req.user_id,
            destination := destination, video_url := req.video_url,
            caption := req.caption, tiktok_settings := none }
        Except.ok (update_overall_status req' overallNow, msg)

/-- The fresh destination child written by `create_upload_request`
(upload_requests.py lines 54-61): status `queued`, iso timestamps and an
empty `logs` array. -/
def initDestRecord (nowIso : String) : DestRecord :=
  { status := DestStatus.queued, created_at := nowIso, updated_at := nowIso,
    logs := [], error := none, result := none }

/-- The job message built for one destination inside the enqueue loop of
`create_upload_request` (upload_requests.py lines 80-91): the
`tiktok_settings` key is added only when settings were provided (truthy)
and the destination starts with `"tiktok:"`. -/
def intake_job_message (request_id user_id video_url caption : String)
    (tiktok_settings : Option (List (String × JVal))) (dest : String) :
    JobMessage :=
  { request_id := request_id, user_id := user_id, destination := dest,
    video_url := video_url, caption := caption,
    tiktok_settings :=
      if truthyDict tiktok_settings && dest.startsWith "tiktok:" then
        tiktok_settings
      else none }

/-- DynamoDB `put_item`: replaces any row with the same key and stores the
new item. -/
def put_item (store : List UploadRequest) (item : UploadRequest) :
    List UploadRequest :=
  store.filter (fun r => r.request_id ≠ item.request_id) ++ [item]

/-- The `for dest in destinations: sqs.send_message(...)` loop of
`create_upload_request`: messages are sent one at a time, in order;
`enqueueOk` tells whether the SQS call for a destination succeeds.  A
failing call raises, aborting the loop: the messages already sent stay
sent and no further destination is enqueued. -/
def send_messages (request_id user_id video_url caption : String)
    (tiktok_settings : Option (List (String × JVal)))
    (enqueueOk : String → Bool) :
    List String → List JobMessage × Except String Unit
  | [] => ([], Except.ok ())
  | dest :: rest =>
    if enqueueOk dest then
      let msg := intake_job_message request_id user_id video_url caption
        tiktok_settings dest
      let r := send_messages request_id user_id video_url caption
        tiktok_settings enqueueOk rest
      (msg :: r.1, r.2)
    else
      ([], Except.error ("Failed to enqueue job for destination " ++ dest))

/-- Embedding of `upload_requests.create_upload_request`
(upload_requests.py lines 28-105): build the parent row with every child
pre-initialized to `queued`, `put_item` it into the store, then enqueue
one job per destination.  Returns the store after the call, the messages
actually sent, and the function's outcome (`.error` when some enqueue
raised; there is no `try`/`except` and no compensating delete in the
source, so the store is returned as it stands at that point). -/
def create_upload_request (store : List UploadRequest)
    (user_id video_url caption : String) (destinations : List String)
    (tiktok_settings : Option (List (String × JVal)))
    (request_id nowIso : String) (timestamp : Nat)
    (enqueueOk : String → Bool) :
    List UploadRequest × List JobMessage × Except String UploadRequest :=
  let destinations_status := destinations.map (fun d => (d, initDestRecord nowIso))
  let request_item : UploadRequest :=
    { request_id := request_id, user_id := user_id, video_url := video_url,
      caption := caption, destinations := destinations_status,
      created_at := timestamp, updated_at := TimeVal.epoch timestamp,
      status := DestStatus.queued, ttl := timestamp + 7776000 }
  let store' := put_item store request_item
  let sent := send_messages request_id user_id video_url caption
    tiktok_settings enqueueOk destinations
  (store', sent.1,
    match sent.2 with
    | Except.ok _ => Except.ok request_item
    | Except.error e => Except.error e)

/-- The rewrite applied to one destination child by
`posting_worker.update_request_status`: replace `status`, `updated_at` and
the whole `logs` array, and overwrite `error` / `result` only for truthy
arguments. -/
def destWrite (rec : DestRecord) (status : DestStatus) (nowIso : String)
    (logs : List LogEntry) (error : Option String)
    (result : Option (List (String × JVal))) : DestRecord :=
  { rec with
    status := status,
    updated_at := nowIso,
    logs := logs,
    error := if truthyStr error then error else rec.error,
    result := if truthyDict result then result else rec.result }

/-- Replace the whole `destinations` map of a parent row (all other
attributes untouched). -/
def withDestinations (req : UploadRequest) (ds : List (String × DestRecord)) :
    UploadRequest :=
  { req with destinations := ds }

/-- The four entries the worker's `DetailedLogger` holds when the handler
marks the child `processing` (posting_worker.py lines 783-787).  `t`
stands for the entries' `datetime.utcnow().isoformat()` timestamps. -/
def handler_initLogs (t request_id user_id destination : String) :
    List LogEntry :=
  [{ timestamp := t, level := "INFO", message := "Starting async post processing" },
   { timestamp := t, level := "INFO", message := "Request ID: " ++ request_id },
   { timestamp := t, level := "INFO", message := "User ID: " ++ user_id },
   { timestamp := t, level := "INFO", message := "Destination: " ++ destination }]

/-- Outcome of the dispatched `process_<platform>_post` call: either the
adapter's result dict, or the exception the `except` block catches.  In
both cases `adapterLogs` are the entries the processing function appended
to the shared `DetailedLogger` buffer before returning or raising. -/
inductive AdapterOutcome where
  | ok (adapterLogs : List LogEntry) (result : List (String × JVal))
  | err (adapterLogs : List LogEntry) (msg : String) (tb : String)
deriving DecidableEq, Repr

/-- The three entries appended on the success path (posting_worker.py
lines 826-828); the rendered result / summary JSON are abstracted as the
strings `resultDump` and `summaryDump`. -/
def handler_successLogs (t resultDump summaryDump : String) : List LogEntry :=
  [{ timestamp := t, level := "INFO", message := "Post completed successfully" },
   { timestamp := t, level := "INFO", message := "Result: " ++ resultDump },
   { timestamp := t, level := "INFO", message := "Summary: " ++ summaryDump }]

/-- The two entries appended on the failure path (posting_worker.py lines
845-846). -/
def handler_errorLogs (t msg tb : String) : List LogEntry :=
  [{ timestamp := t, level := "ERROR", message := "Processing failed: " ++ msg },
   { timestamp := t, level := "ERROR", message := "Full traceback: " ++ tb }]

/-- Embedding of the per-record body of `posting_worker.handler`
(posting_worker.py lines 769-856) from the point where the message has
been decoded: mark the child `processing` with the initial log buffer,
dispatch to the platform adapter, then write the terminal status — the
full (grown) buffer and `result` on success, or the full buffer and the
caught exception's string on any error.  Both terminal writes go through
`update_request_status`, which recomputes the parent status. -/
def handler_record (req : UploadRequest)
    (request_id user_id destination : String) (outcome : AdapterOutcome)
    (t resultDump summaryDump : String) : UploadRequest :=
  let buf0 := handler_initLogs t request_id user_id destination
  let req1 := update_request_status req destination DestStatus.processing t
    buf0 none none t
  match outcome with
  | AdapterOutcome.ok alogs result =>
    update_request_status req1 destination DestStatus.completed t
      (buf0 ++ alogs ++ handler_successLogs t resultDump summaryDump)
      none (some result) t
  | AdapterOutcome.err alogs msg tb =>
    update_request_status req1 destination DestStatus.failed t
      (buf0 ++ alogs ++ handler_errorLogs t msg tb)
      (some msg) none t

/-- The child slot as rewritten by a successful
`resubmit_failed_destination`: status `queued`, a fresh single-entry
`logs` array and the `error` attribute `REMOVE`d. -/
def resubmittedDest (rec : DestRecord) (nowIso : String) : DestRecord :=
  { rec with
    status := DestStatus.queued,
    updated_at := nowIso,
    logs := [{ timestamp := nowIso, level := "INFO", message := "Task resubmitted by user" }],
    error := none }

/-- The single job message sent by `resubmit_failed_destination`. -/
def resubmitMessage (req : UploadRequest) (destination : String) : JobMessage :=
  { request_id := req.request_id, user_id := req.user_id,
    destination := destination, video_url := req.video_url,
    caption := req.caption, tiktok_settings := none }

/-- A concrete request whose one destination child is `failed` and holds
one log entry (used to exhibit the log-erasing resubmit). -/
def c2req : UploadRequest :=
  { request_id := "r1", user_id := "u1", video_url := "v", caption := "c",
    destinations := [("facebook:p1",
      { status := DestStatus.failed, created_at := "T0", updated_at := "T0",
        logs := [{ timestamp := "T0", level := "ERROR", message := "Facebook posting error: boom" }],
        error := some "boom", result := none })],
    created_at := 0, updated_at := TimeVal.epoch 0,
    status := DestStatus.failed, ttl := 100 }

/-- The child's logs after resubmitting `c2req`'s failed destination. -/
def c2logsAfter : Option (List LogEntry) :=
  match resubmit_failed_destination (some c2req) "facebook:p1" "T1" 5 with
  | Except.ok p => (p.1.destinations.lookup "facebook:p1").map DestRecord.logs
  | Except.error _ => none

/-- A concrete request with a failed destination holding two log entries
(used to refute the resubmit "appends" clause). -/
def c7req : UploadRequest :=
  { request_id := "r2", user_id := "u2", video_url := "v2", caption := "c2",
    destinations := [("twitter:t1",
      { status := DestStatus.failed, created_at := "T0", updated_at := "T0",
        logs := [{ timestamp := "T0", level := "INFO", message := "Starting async post processing" },
                 { timestamp := "T0", level := "ERROR", message := "Twitter posting error: denied" }],
        error := some "denied", result := none })],
    created_at := 0, updated_at := TimeVal.epoch 0,
    status := DestStatus.failed, ttl := 100 }

/-- The child's logs after resubmitting `c7req`'s failed destination. -/
def c7logsAfter : Option (List LogEntry) :=
  match resubmit_failed_destination (some c7req) "twitter:t1" "T9" 7 with
  | Except.ok p => (p.1.destinations.lookup "twitter:t1").map DestRecord.logs
  | Except.error _ => none

/-- Status of a scheduled-post row
(`scheduled` / `processing` / `posted` / `cancelled` / `failed`). -/
inductive SchedStatus where
  | scheduled
  | processing
  | posted
  | cancelled
  | failed
deriving DecidableEq, Repr

/-- A scheduled-post row as written by
`scheduled_posts_manager.create_scheduled_post` plus the attributes later
writes add (`posted_at`, `request_id`, `error`). -/
structure ScheduledPost where
  scheduled_post_id : String
  user_id : String
  video_url : String
  caption : String
  destinations : List String
  scheduled_time : Nat
  timezone : String
  status : SchedStatus
  created_at : Nat
  updated_at : Nat
  ttl : Nat
  posted_at : Option Nat
  request_id : Option String
  error : Option String
deriving DecidableEq, Repr

/-- Embedding of `scheduled_posts_manager.mark_post_as_processing`
(scheduled_posts_manager.py lines 240-274): a conditional update guarded
by `ConditionExpression '#status = :scheduled'`.  When the condition holds
the write lands and the function returns `True`; otherwise DynamoDB raises
`ConditionalCheckFailedException`, which the function catches, returning
`False` with the row untouched. -/
def mark_post_as_processing (p : ScheduledPost) (now : Nat) :
    Bool × ScheduledPost :=
  if p.status = SchedStatus.scheduled then
    (true, { p with status := SchedStatus.processing, updated_at := now })
  else (false, p)

/-- Embedding of `scheduled_posts_manager.mark_post_as_posted`
(lines 277-303). -/
def mark_post_as_posted (p : ScheduledPost) (request_id : String)
    (now : Nat) : ScheduledPost :=
  { p with
    status := SchedStatus.posted, updated_at := now,
    posted_at := some now, request_id := some request_id }

/-- Embedding of `scheduled_posts_manager.mark_post_as_failed`
(lines 306-330). -/
def mark_post_as_failed (p : ScheduledPost) (error : String)
    (now : Nat) : ScheduledPost :=
  { p with
    status := SchedStatus.failed, updated_at := now,
    error := some error }

/-- The per-post body of `scheduler_processor.handler`
(scheduler_processor.py lines 48-84) for one scheduler execution: attempt
the conditional promotion; on `False` skip (`continue`) with no write at
all; on `True` call `create_upload_request` — its outcome is abstracted as
`createOutcome` (`.ok request_id` or `.error e`) — and mark the row
`posted` or `failed`.  The second component reports whether this execution
won the promotion and went on to create an upload request. -/
def scheduler_process_post (p : ScheduledPost)
    (createOutcome : Except String String) (now : Nat) :
    ScheduledPost × Option (Except String String) :=
  let r := mark_post_as_processing p now
  if r.1 then
    match createOutcome with
    | Except.ok request_id =>
        (mark_post_as_posted r.2 request_id now, some (Except.ok request_id))
    | Except.error e =>
        (mark_post_as_failed r.2 e now, some (Except.error e))
  else (r.2, none)

/-- Sequential composition of scheduler executions racing on one row.  The
conditional writes serialize at DynamoDB, and a losing execution performs
no write on the row, so every concurrent interleaving is observationally
equal to this fold in conditional-write order. -/
def scheduler_run_all (p : ScheduledPost) :
    List (Except String String × Nat) →
      ScheduledPost × List (Option (Except String String))
  | [] => (p, [])
  | e :: rest =>
    let r := scheduler_process_post p e.1 e.2
    let rr := scheduler_run_all r.1 rest
    (rr.1, r.2 :: rr.2)

/-- A concrete due scheduled row in status `scheduled`. -/
def p0sched : ScheduledPost :=
  { scheduled_post_id := "sp1", user_id := "u1", video_url := "v",
    caption := "c", destinations := ["facebook:p1"], scheduled_time := 10,
    timezone := "UTC", status := SchedStatus.scheduled, created_at := 1,
    updated_at := 1, ttl := 100, posted_at := none, request_id := none,
    error := none }

/-- The result dict `InstagramPostingService.post_reel` returns when the
container reached `FINISHED` and `/media_publish` succeeded
(instagram_posting.py lines 218-225). -/
def post_reel_published_result (instagram_account_id media_id : String) :
    List (String × JVal) :=
  [("success", JVal.b true), ("media_id", JVal.s media_id),
   ("post_id", JVal.s media_id), ("platform", JVal.s "instagram"),
   ("instagram_account_id", JVal.s instagram_account_id),
   ("status", JVal.s "published")]

/-- The result dict `post_reel` returns when the poll budget is exhausted
with the container still processing (instagram_posting.py lines 244-252). -/
def post_reel_processing_result (instagram_account_id container_id : String) :
    List (String × JVal) :=
  [("success", JVal.b true), ("container_id", JVal.s container_id),
   ("post_id", JVal.s container_id), ("platform", JVal.s "instagram"),
   ("instagram_account_id", JVal.s instagram_account_id),
   ("status", JVal.s "processing"),
   ("message", JVal.s "Video uploaded successfully. Instagram is processing it and will publish shortly.")]

/-- Outcome of the `/media_publish` POST, abstracted: `.ok media_id` for
an HTTP 200 response, `.httpError` with the extracted error message
otherwise. -/
inductive IgPublishOutcome where
  | ok (media_id : String)
  | httpError (msg : String)
deriving DecidableEq, Repr

/-- The publish branch taken when a poll reports `FINISHED`
(instagram_posting.py lines 196-225). -/
def post_reel_publish (instagram_account_id container_id : String)
    (publish : IgPublishOutcome) : Except String (List (String × JVal)) :=
  match publish with
  | IgPublishOutcome.ok media_id =>
    Except.ok (post_reel_published_result instagram_account_id media_id)
  | IgPublishOutcome.httpError m =>
    Except.error ("Failed to publish: " ++ m)

/-- The container status-poll loop of `post_reel` (instagram_posting.py
lines 175-252), from the point the chunked upload succeeded.
`responses attempt` abstracts the attempt-th status check: `none` for a
non-200 response (logged and retried), `some sc` for HTTP 200 carrying
`status_code = sc`.  On `FINISHED` the publish branch runs; on `ERROR` the
adapter raises; every other outcome sleeps and retries.  Recursion is on
the remaining attempts (`max_retries = 5` at the top call); on exhaustion
the function returns the `status: "processing"` success result. -/
def post_reel_poll_go (responses : Nat → Option String)
    (publish : IgPublishOutcome)
    (instagram_account_id container_id : String) :
    Nat → Nat → Except String (List (String × JVal))
  | _, 0 =>
    Except.ok (post_reel_processing_result instagram_account_id container_id)
  | attempt, fuel+1 =>
    match responses attempt with
    | some sc =>
      if sc = "FINISHED" then
        post_reel_publish instagram_account_id container_id publish
      else if sc = "ERROR" then
        Except.error "Instagram reported an error processing the video"
      else
        post_reel_poll_go responses publish instagram_account_id container_id
          (attempt + 1) fuel
    | none =>
      post_reel_poll_go responses publish instagram_account_id container_id
        (attempt + 1) fuel

/-- Embedding of `InstagramPostingService.post_reel` after a successful
chunked upload: the five-attempt poll loop starting at attempt 0. -/
def post_reel (responses : Nat → Option String) (publish : IgPublishOutcome)
    (instagram_account_id container_id : String) :
    Except String (List (String × JVal)) :=
  post_reel_poll_go responses publish instagram_account_id container_id 0 5

/-- The JSON body returned by the `/api/social/post` endpoint on success
(main.py lines 877-884). -/
structure PostResponse where
  request_id : String
  status : String
  message : String
  destinations : List String
  video_url : String
  created_at : Nat
deriving DecidableEq, Repr

/-- Embedding of `main.post_to_social_media` (main.py lines 835-890).
`s3_key` / `caption` / `account_ids` are the request-body fields
(`request.get` defaults applied by the caller); `hasAccount a` abstracts
the truthiness of `SocialAccountManager.get_account(user_id, a)`;
`video_url` is the public URL computed from the bucket and `s3_key`.
Returns the HTTP outcome — `.error (code, detail)` for an
`HTTPException` — together with the request store and the sent job
messages after the call. -/
def post_to_social_media (store : List UploadRequest) (user_id : String)
    (s3_key : Option String) (caption : String) (account_ids : List String)
    (hasAccount : String → Bool) (video_url : String)
    (request_id nowIso : String) (timestamp : Nat)
    (enqueueOk : String → Bool) :
    Except (Nat × String) PostResponse × List UploadRequest
      × List JobMessage :=
  if truthyStr s3_key = false then
    (Except.error (400, "s3_key is required"), store, [])
  else if account_ids.isEmpty then
    (Except.error (400, "No accounts selected"), store, [])
  else
    let destinations := account_ids.filter hasAccount
    if destinations = [] then
      (Except.error (404, "No valid accounts found"), store, [])
    else
      let r := create_upload_request store user_id video_url caption
        destinations none request_id nowIso timestamp enqueueOk
      match r.2.2 with
      | Except.ok item =>
        (Except.ok
          { request_id := item.request_id, status := "queued",
            message := "Upload request created for "
              ++ toString destinations.length ++ " destination(s)",
            destinations := destinations, video_url := video_url,
            created_at := item.created_at }, r.1, r.2.1)
      | Except.error e => (Except.error (500, e), r.1, r.2.1)

/-- Embedding of the text truncation inside
`TwitterPostingService._create_tweet` (twitter_posting.py lines 470-472):
a Python `str` is a sequence of code points, modelled as `List Char`;
`if len(text) > 280: text = text[:277] + "..."` is `take 277` followed by
three ASCII periods.  The returned list is the `text` field sent to the
v2 `/tweets` endpoint. -/
def create_tweet_sent_text (text : List Char) : List Char :=
  if text.length > 280 then text.take 277 ++ ['.', '.', '.'] else text

/-- A social-account row as written by
`SocialAccountManager.create_account` (social_accounts.py lines 69-86). -/
structure SocialAccount where
  user_id : String
  account_id : String
  platform : String
  platform_user_id : String
  access_token : String
  refresh_token : Option String
  token_expires_at : Option Int
  username : Option String
  account_type : String
  page_id : Option String
  page_name : Option String
  instagram_account_id : Option String
  profile_data : List (String × JVal)
  created_at : Int
  updated_at : Int
  is_active : Bool
deriving DecidableEq, Repr

/-- Embedding of `SocialAccountManager.update_tokens`
(social_accounts.py lines 134-169): the `UpdateExpression` always SETs
`access_token` and `updated_at`; `refresh_token` is appended to it only
when the argument is truthy (`if refresh_token:` — not `None` and not
`""`), `token_expires_at` only when truthy (not `None` and not `0`); no
other attribute appears in the expression. -/
def update_tokens (acc : SocialAccount) (access_token : String)
    (refresh_token : Option String) (token_expires_at : Option Int)
    (timestamp : Int) : SocialAccount :=
  let acc1 := { acc with access_token := access_token, updated_at := timestamp }
  let acc2 :=
    if truthyStr refresh_token then { acc1 with refresh_token := refresh_token }
    else acc1
  if truthyInt token_expires_at then
    { acc2 with token_expires_at := token_expires_at }
  else acc2

/-- A concrete linked account used as the `update_tokens` witness input. -/
def acc0 : SocialAccount :=
  { user_id := "u1", account_id := "youtube:ch1", platform := "youtube",
    platform_user_id := "ch1", access_token := "old-token",
    refresh_token := some "old-refresh", token_expires_at := some 1000,
    username := some "creator", account_type := "personal",
    page_id := none, page_name := none, instagram_account_id := none,
    profile_data := [], created_at := 1, updated_at := 1,
    is_active := true }

lemma destStatus_cases (s : DestStatus) :
    s = DestStatus.queued ∨ s = DestStatus.processing ∨
    s = DestStatus.completed ∨ s = DestStatus.failed := by
  cases s <;> simp

lemma no_other_all_completed (ss : List DestStatus)
    (hf : ss.any (· == DestStatus.failed) = false)
    (hp : ss.any (· == DestStatus.processing) = false)
    (hq : ss.any (· == DestStatus.queued) = false) :
    ss.all (· == DestStatus.completed) = true := by
  simp only [List.any_eq_false, beq_iff_eq] at hf hp hq
  simp only [List.all_eq_true, beq_iff_eq]
  intro x hx
  rcases destStatus_cases x with h | h | h | h
  · exact absurd h (hq x hx)
  · exact absurd h (hp x hx)
  · exact h
  · exact absurd h (hf x hx)

lemma queued_not_all_completed (ss : List DestStatus)
    (hq : ss.any (· == DestStatus.queued) = true) :
    ss.all (· == DestStatus.completed) = false := by
  simp only [List.any_eq_true, beq_iff_eq] at hq
  obtain ⟨x, hx, hxq⟩ := hq
  simp only [List.all_eq_false]
  exact ⟨x, hx, by simp [hxq]⟩

/-- C1 counterexample: with children `[processing, failed]` the request
store's `update_overall_status` derivation yields `failed` while the
authoritative rule of §4.6 (and the worker's `update_parent_request_status`)
yields `processing`; the two implementations disagree on this input. -/
theorem store_derive_disagrees_on_processing_failed :
    update_overall_status_derive [DestStatus.processing, DestStatus.failed]
      = DestStatus.failed
    ∧ specParentStatusRule [DestStatus.processing, DestStatus.failed]
      = DestStatus.processing
    ∧ update_parent_request_status_derive [DestStatus.processing, DestStatus.failed]
      = DestStatus.processing
    ∧ update_overall_status_derive [DestStatus.processing, DestStatus.failed]
      ≠ update_parent_request_status_derive
          [DestStatus.processing, DestStatus.failed] := by
  refine ⟨rfl, rfl, rfl, ?_⟩
  decide

/-- C1 amended: the worker's `update_parent_request_status` derivation
implements the §4.6 rule exactly on every input, but the request store's
`update_overall_status` derivation prioritizes `failed` over `processing`;
the two implementations agree on an assignment of children statuses
exactly when it is not the case that some child is `failed` while another
is `processing`. -/
theorem worker_matches_rule_store_agrees_iff_no_mixed (ss : List DestStatus) :
    update_parent_request_status_derive ss = specParentStatusRule ss
    ∧ (update_overall_status_derive ss = specParentStatusRule ss ↔
        ¬(DestStatus.failed ∈ ss ∧ DestStatus.processing ∈ ss)) := by
  constructor
  · simp [update_parent_request_status_derive, specParentStatusRule]
  · constructor
    · intro heq hmem
      obtain ⟨hf, hp⟩ := hmem
      have hfa : ss.any (· == DestStatus.failed) = true := by
        simp only [List.any_eq_true, beq_iff_eq]; exact ⟨_, hf, rfl⟩
      have hpa : ss.any (· == DestStatus.processing) = true := by
        simp only [List.any_eq_true, beq_iff_eq]; exact ⟨_, hp, rfl⟩
      rw [update_overall_status_derive, specParentStatusRule] at heq
      simp [hfa, hpa] at heq
    · intro hno
      by_cases hfa : ss.any (· == DestStatus.failed) = true
      · have hpa : ss.any (· == DestStatus.processing) = false := by
          by_contra hc
          have hc' : ss.any (· == DestStatus.processing) = true := by
            revert hc; cases ss.any (· == DestStatus.processing) <;> simp
          apply hno
          simp only [List.any_eq_true, beq_iff_eq] at hfa hc'
          obtain ⟨x, hx, hxf⟩ := hfa
          obtain ⟨y, hy, hyp⟩ := hc'
          exact ⟨hxf ▸ hx, hyp ▸ hy⟩
        rw [update_overall_status_derive, specParentStatusRule]
        simp [hfa, hpa]
      · have hfa' : ss.any (· == DestStatus.failed) = false := by
          revert hfa; cases ss.any (· == DestStatus.failed) <;> simp
        rw [update_overall_status_derive, specParentStatusRule]
        by_cases hpa : ss.any (· == DestStatus.processing) = true
        · simp [hfa', hpa]
        · have hpa' : ss.any (· == DestStatus.processing) = false := by
            revert hpa; cases ss.any (· == DestStatus.processing) <;> simp
          by_cases hqa : ss.any (· == DestStatus.queued) = true
          · have hall := queued_not_all_completed ss hqa
            simp [hfa', hpa', hqa, hall]
          · have hqa' : ss.any (· == DestStatus.queued) = false := by
              revert hqa; cases ss.any (· == DestStatus.queued) <;> simp
            have hall := no_other_all_completed ss hfa' hpa' hqa'
            simp [hfa', hpa', hqa', hall]

lemma lookup_setDest_self (l : List (String × DestRecord)) (dest : String)
    (rec' : DestRecord) (h : (l.lookup dest).isSome) :
    (setDest l dest rec').lookup dest = some rec' := by
  induction l with
  | nil => simp [List.lookup] at h
  | cons p rest ih =>
    obtain ⟨k, v⟩ := p
    by_cases hp : k = dest
    · subst hp
      have hhead : setDest ((k, v) :: rest) k rec' = (k, rec') :: setDest rest k rec' := by
        simp [setDest]
      rw [hhead]
      simp [List.lookup]
    · have hne : (dest == k) = false := by
        simp only [beq_eq_false_iff_ne, ne_eq]
        intro hc; exact hp hc.symm
      have hhead : setDest ((k, v) :: rest) dest rec' = (k, v) :: setDest rest dest rec' := by
        simp [setDest, if_neg hp]
      simp only [List.lookup, hne] at h
      rw [hhead]
      simp only [List.lookup, hne]
      exact ih h

lemma lookup_setDest_isSome (l : List (String × DestRecord)) (dest : String)
    (rec' : DestRecord) (h : (l.lookup dest).isSome) :
    ((setDest l dest rec').lookup dest).isSome := by
  rw [lookup_setDest_self l dest rec' h]; rfl

lemma setDest_ne_nil (l : List (String × DestRecord)) (dest : String)
    (rec' : DestRecord) (h : l ≠ []) : setDest l dest rec' ≠ [] := by
  cases l with
  | nil => exact absurd rfl h
  | cons p rest => simp [setDest]

lemma lookup_isSome_ne_nil (l : List (String × DestRecord)) (dest : String)
    (h : (l.lookup dest).isSome) : l ≠ [] := by
  cases l with
  | nil => simp [List.lookup] at h
  | cons p rest => simp

lemma send_messages_error_of_any_fail (request_id user_id video_url caption : String)
    (ts : Option (List (String × JVal))) (f : String → Bool) :
    ∀ ds : List String, ds.all f = false →
      ∃ e, (send_messages request_id user_id video_url caption ts f ds).2
        = Except.error e := by
  intro ds
  induction ds with
  | nil => intro h; simp at h
  | cons d rest ih =>
    intro h
    by_cases hd : f d = true
    · simp only [List.all_cons, hd, Bool.true_and] at h
      obtain ⟨e, he⟩ := ih h
      exact ⟨e, by simp only [send_messages, hd, if_true]; exact he⟩
    · have hd' : f d = false := by revert hd; cases f d <;> simp
      exact ⟨"Failed to enqueue job for destination " ++ d,
        by simp [send_messages, hd']⟩

lemma send_messages_sent_eq_takeWhile (request_id user_id video_url caption : String)
    (ts : Option (List (String × JVal))) (f : String → Bool) :
    ∀ ds : List String,
      (send_messages request_id user_id video_url caption ts f ds).1
        = (ds.takeWhile f).map
            (intake_job_message request_id user_id video_url caption ts) := by
  intro ds
  induction ds with
  | nil => simp [send_messages]
  | cons d rest ih =>
    by_cases hd : f d = true
    · simp [send_messages, hd, List.takeWhile_cons, ih]
    · have hd' : f d = false := by revert hd; cases f d <;> simp
      simp [send_messages, hd', List.takeWhile_cons]

/-- C3 amended: when enqueueing fails for some destination of a submit,
`create_upload_request` does fail (raises), but nothing is rolled back:
the parent row, with every destination child still `queued`, remains in
the request store, and the job messages for the destinations before the
failing one have already been enqueued. -/
theorem create_enqueue_failure_is_not_rolled_back (store : List UploadRequest)
    (user_id video_url caption : String) (destinations : List String)
    (ts : Option (List (String × JVal))) (request_id nowIso : String)
    (timestamp : Nat) (enqueueOk : String → Bool)
    (hfail : destinations.all enqueueOk = false) :
    (∃ e, (create_upload_request store user_id video_url caption destinations
        ts request_id nowIso timestamp enqueueOk).2.2 = Except.error e)
    ∧ (∃ item,
        item ∈ (create_upload_request store user_id video_url caption destinations
          ts request_id nowIso timestamp enqueueOk).1
        ∧ item.request_id = request_id
        ∧ item.status = DestStatus.queued
        ∧ ∀ p ∈ item.destinations, p.2.status = DestStatus.queued)
    ∧ (create_upload_request store user_id video_url caption destinations
        ts request_id nowIso timestamp enqueueOk).2.1
      = (destinations.takeWhile enqueueOk).map
          (intake_job_message request_id user_id video_url caption ts) := by
  refine ⟨?_, ?_, ?_⟩
  · obtain ⟨e, he⟩ := send_messages_error_of_any_fail request_id user_id
      video_url caption ts enqueueOk destinations hfail
    exact ⟨e, by simp only [create_upload_request]; rw [he]⟩
  · refine ⟨⟨request_id, user_id, video_url, caption,
      destinations.map (fun d => (d, initDestRecord nowIso)),
      timestamp, TimeVal.epoch timestamp, DestStatus.queued,
      timestamp + 7776000⟩, ?_, rfl, rfl, ?_⟩
    · simp [create_upload_request, put_item]
    · intro p hp
      simp only [List.mem_map] at hp
      obtain ⟨d, _, hd⟩ := hp
      rw [← hd]
      rfl
  · exact send_messages_sent_eq_takeWhile request_id user_id video_url caption
      ts enqueueOk destinations

/-- Witness for `create_enqueue_failure_is_not_rolled_back` at a concrete
submit whose second destination fails to enqueue. -/
theorem create_enqueue_failure_is_not_rolled_back_witness :
    (["facebook:p1", "instagram:i1"].all (fun d => d == "facebook:p1") = false)
    ∧ ((∃ e, (create_upload_request [] "u1" "https://v" "hi"
          ["facebook:p1", "instagram:i1"] none "rid-1" "T0" 1000
          (fun d => d == "facebook:p1")).2.2 = Except.error e)
      ∧ (∃ item,
          item ∈ (create_upload_request [] "u1" "https://v" "hi"
            ["facebook:p1", "instagram:i1"] none "rid-1" "T0" 1000
            (fun d => d == "facebook:p1")).1
          ∧ item.request_id = "rid-1"
          ∧ item.status = DestStatus.queued
          ∧ ∀ p ∈ item.destinations, p.2.status = DestStatus.queued)
      ∧ (create_upload_request [] "u1" "https://v" "hi"
          ["facebook:p1", "instagram:i1"] none "rid-1" "T0" 1000
          (fun d => d == "facebook:p1")).2.1
        = ((["facebook:p1", "instagram:i1"].takeWhile (fun d => d == "facebook:p1")).map
            (intake_job_message "rid-1" "u1" "https://v" "hi" none))) :=
  ⟨by decide,
   create_enqueue_failure_is_not_rolled_back [] "u1" "https://v" "hi"
     ["facebook:p1", "instagram:i1"] none "rid-1" "T0" 1000
     (fun d => d == "facebook:p1") (by decide)⟩

/-- C3 counterexample: a concrete submit with two destinations whose
second enqueue fails.  `create_upload_request` raises, yet the request
store still holds the parent row (with both children `queued`) and the
first destination's job message was already sent — the store is not left
as if the submit never happened. -/
theorem create_enqueue_failure_leaves_partial_parent :
    (create_upload_request [] "u1" "https://v" "hi"
        ["facebook:p1", "instagram:i1"] none "rid-1" "T0" 1000
        (fun d => d == "facebook:p1")).2.2
      = Except.error "Failed to enqueue job for destination instagram:i1"
    ∧ ((create_upload_request [] "u1" "https://v" "hi"
        ["facebook:p1", "instagram:i1"] none "rid-1" "T0" 1000
        (fun d => d == "facebook:p1")).1.map (fun r => r.request_id))
      = ["rid-1"]
    ∧ ((create_upload_request [] "u1" "https://v" "hi"
        ["facebook:p1", "instagram:i1"] none "rid-1" "T0" 1000
        (fun d => d == "facebook:p1")).2.1.map (fun m => m.destination))
      = ["facebook:p1"] :=
  ⟨rfl, rfl, rfl⟩

lemma destinations_update_parent (req : UploadRequest) (nowIso : String) :
    (update_parent_request_status req nowIso).destinations = req.destinations := by
  unfold update_parent_request_status
  split <;> rfl

lemma destinations_update_overall (req : UploadRequest) (now : Nat) :
    (update_overall_status req now).destinations = req.destinations := by
  simp only [update_overall_status]
  split
  · rfl
  · split <;> rfl

lemma status_update_overall (req : UploadRequest) (now : Nat)
    (h : req.destinations ≠ []) :
    (update_overall_status req now).status
      = update_overall_status_derive
          (req.destinations.map (fun p => p.2.status)) := by
  simp only [update_overall_status]
  rw [if_neg h]
  by_cases hs : req.status
      ≠ update_overall_status_derive (req.destinations.map (fun p => p.2.status))
  · rw [if_pos hs]
  · rw [if_neg hs]
    simpa using hs

lemma update_request_status_eq (req : UploadRequest) (destination : String)
    (status : DestStatus) (nowIso : String) (logs : List LogEntry)
    (error : Option String) (result : Option (List (String × JVal)))
    (parentNowIso : String) (rec : DestRecord)
    (h : req.destinations.lookup destination = some rec) :
    update_request_status req destination status nowIso logs error result
        parentNowIso
      = update_parent_request_status
          (withDestinations req (setDest req.destinations destination
            (destWrite rec status nowIso logs error result)))
          parentNowIso := by
  unfold update_request_status
  rw [h]
  rfl

lemma lookup_update_request_status (req : UploadRequest) (destination : String)
    (status : DestStatus) (nowIso : String) (logs : List LogEntry)
    (error : Option String) (result : Option (List (String × JVal)))
    (parentNowIso : String) (rec : DestRecord)
    (h : req.destinations.lookup destination = some rec) :
    (update_request_status req destination status nowIso logs error result
        parentNowIso).destinations.lookup destination
      = some (destWrite rec status nowIso logs error result) := by
  rw [update_request_status_eq req destination status nowIso logs error result
    parentNowIso rec h]
  rw [destinations_update_parent]
  simp only [withDestinations]
  exact lookup_setDest_self _ _ _ (by rw [h]; rfl)

lemma parent_recomputed_update_request_status (req : UploadRequest)
    (destination : String) (status : DestStatus) (nowIso : String)
    (logs : List LogEntry) (error : Option String)
    (result : Option (List (String × JVal))) (parentNowIso : String)
    (rec : DestRecord)
    (h : req.destinations.lookup destination = some rec) :
    (update_request_status req destination status nowIso logs error result
        parentNowIso).status
      = update_parent_request_status_derive
          ((update_request_status req destination status nowIso logs error
              result parentNowIso).destinations.map (fun p => p.2.status)) := by
  rw [update_request_status_eq req destination status nowIso logs error result
    parentNowIso rec h]
  rw [destinations_update_parent]
  have hne : (withDestinations req (setDest req.destinations destination
      (destWrite rec status nowIso logs error result))).destinations ≠ [] := by
    simp only [withDestinations]
    exact setDest_ne_nil _ _ _ (lookup_isSome_ne_nil _ _ (by rw [h]; rfl))
  unfold update_parent_request_status
  rw [if_neg hne]

/-- C4: the worker handler catches every error raised after the child was
marked `processing`: whatever the adapter outcome, the processed child is
left `completed` or `failed`, never `processing`; on the failure path the
child carries the caught error string and the full log buffer, and the
parent overall status is recomputed (it equals the worker's derivation
over the children statuses as they stand after the terminal write). -/
theorem worker_handler_leaves_no_processing_child (req : UploadRequest)
    (request_id user_id destination : String) (outcome : AdapterOutcome)
    (t resultDump summaryDump : String)
    (h : (req.destinations.lookup destination).isSome) :
    (∃ rec',
      (handler_record req request_id user_id destination outcome t resultDump
          summaryDump).destinations.lookup destination = some rec'
      ∧ rec'.status ≠ DestStatus.processing
      ∧ (∀ alogs result, outcome = AdapterOutcome.ok alogs result →
          rec'.status = DestStatus.completed)
      ∧ (∀ alogs msg tb, outcome = AdapterOutcome.err alogs msg tb →
          rec'.status = DestStatus.failed
          ∧ (msg ≠ "" → rec'.error = some msg)
          ∧ rec'.logs = handler_initLogs t request_id user_id destination
              ++ alogs ++ handler_errorLogs t msg tb))
    ∧ (handler_record req request_id user_id destination outcome t resultDump
        summaryDump).status
      = update_parent_request_status_derive
          ((handler_record req request_id user_id destination outcome t
              resultDump summaryDump).destinations.map (fun p => p.2.status)) := by
  obtain ⟨rec, hrec⟩ := Option.isSome_iff_exists.mp h
  have h1 := lookup_update_request_status req destination DestStatus.processing
    t (handler_initLogs t request_id user_id destination) none none t rec hrec
  cases outcome with
  | ok alogs result =>
    have h2 := lookup_update_request_status
      (update_request_status req destination DestStatus.processing t
        (handler_initLogs t request_id user_id destination) none none t)
      destination DestStatus.completed t
      (handler_initLogs t request_id user_id destination ++ alogs
        ++ handler_successLogs t resultDump summaryDump) none (some result) t
      (destWrite rec DestStatus.processing t
        (handler_initLogs t request_id user_id destination) none none) h1
    have h3 := parent_recomputed_update_request_status
      (update_request_status req destination DestStatus.processing t
        (handler_initLogs t request_id user_id destination) none none t)
      destination DestStatus.completed t
      (handler_initLogs t request_id user_id destination ++ alogs
        ++ handler_successLogs t resultDump summaryDump) none (some result) t
      (destWrite rec DestStatus.processing t
        (handler_initLogs t request_id user_id destination) none none) h1
    refine ⟨⟨_, h2, ?_, ?_, ?_⟩, h3⟩
    · simp [destWrite]
    · intro alogs' result' heq
      simp [destWrite]
    · intro alogs' msg' tb' heq
      exact absurd heq (by simp)
  | err alogs msg tb =>
    have h2 := lookup_update_request_status
      (update_request_status req destination DestStatus.processing t
        (handler_initLogs t request_id user_id destination) none none t)
      destination DestStatus.failed t
      (handler_initLogs t request_id user_id destination ++ alogs
        ++ handler_errorLogs t msg tb) (some msg) none t
      (destWrite rec DestStatus.processing t
        (handler_initLogs t request_id user_id destination) none none) h1
    have h3 := parent_recomputed_update_request_status
      (update_request_status req destination DestStatus.processing t
        (handler_initLogs t request_id user_id destination) none none t)
      destination DestStatus.failed t
      (handler_initLogs t request_id user_id destination ++ alogs
        ++ handler_errorLogs t msg tb) (some msg) none t
      (destWrite rec DestStatus.processing t
        (handler_initLogs t request_id user_id destination) none none) h1
    refine ⟨⟨_, h2, ?_, ?_, ?_⟩, h3⟩
    · simp [destWrite]
    · intro alogs' result' heq
      exact absurd heq (by simp)
    · intro alogs' msg' tb' heq
      injection heq with h1' h2' h3'
      subst h1'; subst h2'; subst h3'
      refine ⟨by simp [destWrite], ?_, by simp [destWrite]⟩
      intro hmsg
      have ht : truthyStr (some msg) = true := by
        simp [truthyStr, hmsg]
      simp [destWrite, ht]

/-- Witness for `worker_handler_leaves_no_processing_child`: a concrete
one-destination request whose adapter raises. -/
theorem worker_handler_leaves_no_processing_child_witness :
    ((([("facebook:p1", initDestRecord "T0")] :
          List (String × DestRecord)).lookup "facebook:p1").isSome = true)
    ∧ ((∃ rec',
        (handler_record
            ⟨"r1", "u1", "v", "c", [("facebook:p1", initDestRecord "T0")],
              0, TimeVal.epoch 0, DestStatus.queued, 100⟩
            "r1" "u1" "facebook:p1"
            (AdapterOutcome.err [] "boom" "tb") "T1" "" "").destinations.lookup
          "facebook:p1" = some rec'
        ∧ rec'.status ≠ DestStatus.processing
        ∧ (∀ alogs result,
            AdapterOutcome.err [] "boom" "tb" = AdapterOutcome.ok alogs result →
            rec'.status = DestStatus.completed)
        ∧ (∀ alogs msg tb,
            AdapterOutcome.err [] "boom" "tb" = AdapterOutcome.err alogs msg tb →
            rec'.status = DestStatus.failed
            ∧ (msg ≠ "" → rec'.error = some msg)
            ∧ rec'.logs = handler_initLogs "T1" "r1" "u1" "facebook:p1"
                ++ alogs ++ handler_errorLogs "T1" msg tb))
      ∧ (handler_record
            ⟨"r1", "u1", "v", "c", [("facebook:p1", initDestRecord "T0")],
              0, TimeVal.epoch 0, DestStatus.queued, 100⟩
            "r1" "u1" "facebook:p1"
            (AdapterOutcome.err [] "boom" "tb") "T1" "" "").status
        = update_parent_request_status_derive
            ((handler_record
                ⟨"r1", "u1", "v", "c", [("facebook:p1", initDestRecord "T0")],
                  0, TimeVal.epoch 0, DestStatus.queued, 100⟩
                "r1" "u1" "facebook:p1"
                (AdapterOutcome.err [] "boom" "tb") "T1" "" "").destinations.map
              (fun p => p.2.status))) :=
  ⟨by decide,
   worker_handler_leaves_no_processing_child
     ⟨"r1", "u1", "v", "c", [("facebook:p1", initDestRecord "T0")],
       0, TimeVal.epoch 0, DestStatus.queued, 100⟩
     "r1" "u1" "facebook:p1" (AdapterOutcome.err [] "boom" "tb") "T1" "" ""
     (by decide)⟩

lemma resubmit_ok_eq (req : UploadRequest) (destination nowIso : String)
    (overallNow : Nat) (rec : DestRecord)
    (hrec : req.destinations.lookup destination = some rec)
    (hfailed : rec.status = DestStatus.failed) :
    resubmit_failed_destination (some req) destination nowIso overallNow
      = Except.ok
          (update_overall_status
            (withDestinations req (setDest req.destinations destination
              (resubmittedDest rec nowIso))) overallNow,
          resubmitMessage req destination) := by
  simp only [resubmit_failed_destination, hrec]
  rw [if_neg (by simp [hfailed])]
  rfl

lemma resubmit_child_after (req : UploadRequest) (destination nowIso : String)
    (overallNow : Nat) (rec : DestRecord)
    (hrec : req.destinations.lookup destination = some rec) :
    (update_overall_status
        (withDestinations req (setDest req.destinations destination
          (resubmittedDest rec nowIso))) overallNow).destinations.lookup
        destination
      = some (resubmittedDest rec nowIso) := by
  rw [destinations_update_overall]
  simp only [withDestinations]
  exact lookup_setDest_self _ _ _ (by rw [hrec]; rfl)

/-- C2 amended: the stored `logs` array is NOT append-only across a
request's lifetime — every write replaces the whole array.  Within one
worker invocation this is harmless (each write carries the invocation's
growing buffer, so the terminal write extends the initial `processing`
buffer), but `resubmit_failed_destination` replaces the child's logs with
the single fresh `Task resubmitted by user` entry: the entries present
before the resubmit are gone. -/
theorem logs_writes_replace_not_append :
    (∀ (req : UploadRequest) (destination : String) (status : DestStatus)
        (nowIso : String) (logs : List LogEntry) (error : Option String)
        (result : Option (List (String × JVal))) (parentNowIso : String)
        (rec : DestRecord),
      req.destinations.lookup destination = some rec →
      ∃ rec',
        (update_request_status req destination status nowIso logs error
            result parentNowIso).destinations.lookup destination = some rec'
        ∧ rec'.logs = logs)
    ∧ (∀ (req : UploadRequest) (request_id user_id destination : String)
        (outcome : AdapterOutcome) (t resultDump summaryDump : String),
      (req.destinations.lookup destination).isSome →
      ∃ rec' tail,
        (handler_record req request_id user_id destination outcome t
            resultDump summaryDump).destinations.lookup destination = some rec'
        ∧ rec'.logs
          = handler_initLogs t request_id user_id destination ++ tail)
    ∧ (∀ (req : UploadRequest) (destination nowIso : String)
        (overallNow : Nat) (rec : DestRecord),
      req.destinations.lookup destination = some rec →
      rec.status = DestStatus.failed →
      ∃ req' msg,
        resubmit_failed_destination (some req) destination nowIso overallNow
          = Except.ok (req', msg)
        ∧ (req'.destinations.lookup destination).map DestRecord.logs
          = some [{ timestamp := nowIso, level := "INFO", message := "Task resubmitted by user" }]) := by
  refine ⟨?_, ?_, ?_⟩
  · intro req destination status nowIso logs error result parentNowIso rec hrec
    exact ⟨destWrite rec status nowIso logs error result,
      lookup_update_request_status req destination status nowIso logs error
        result parentNowIso rec hrec, rfl⟩
  · intro req request_id user_id destination outcome t resultDump summaryDump h
    obtain ⟨rec, hrec⟩ := Option.isSome_iff_exists.mp h
    have h1 := lookup_update_request_status req destination
      DestStatus.processing t
      (handler_initLogs t request_id user_id destination) none none t rec hrec
    cases outcome with
    | ok alogs result =>
      refine ⟨_, alogs ++ handler_successLogs t resultDump summaryDump,
        lookup_update_request_status
          (update_request_status req destination DestStatus.processing t
            (handler_initLogs t request_id user_id destination) none none t)
          destination DestStatus.completed t
          (handler_initLogs t request_id user_id destination ++ alogs
            ++ handler_successLogs t resultDump summaryDump) none (some result)
          t _ h1, ?_⟩
      simp [destWrite, List.append_assoc]
    | err alogs msg tb =>
      refine ⟨_, alogs ++ handler_errorLogs t msg tb,
        lookup_update_request_status
          (update_request_status req destination DestStatus.processing t
            (handler_initLogs t request_id user_id destination) none none t)
          destination DestStatus.failed t
          (handler_initLogs t request_id user_id destination ++ alogs
            ++ handler_errorLogs t msg tb) (some msg) none t _ h1, ?_⟩
      simp [destWrite, List.append_assoc]
  · intro req destination nowIso overallNow rec hrec hfailed
    refine ⟨_, _, resubmit_ok_eq req destination nowIso overallNow rec hrec
      hfailed, ?_⟩
    rw [resubmit_child_after req destination nowIso overallNow rec hrec]
    rfl

/-- Witness for `logs_writes_replace_not_append` on a concrete failed
child with one pre-existing log entry. -/
theorem logs_writes_replace_not_append_witness :
    ((⟨"r1", "u1", "v", "c",
        [("facebook:p1",
          ⟨DestStatus.failed, "T0", "T0",
            [⟨"T0", "ERROR", "Facebook posting error: boom"⟩],
            some "boom", none⟩)],
        0, TimeVal.epoch 0, DestStatus.failed, 100⟩ :
          UploadRequest).destinations.lookup "facebook:p1"
      = some ⟨DestStatus.failed, "T0", "T0",
          [⟨"T0", "ERROR", "Facebook posting error: boom"⟩], some "boom", none⟩)
    ∧ (∃ req' msg,
        resubmit_failed_destination
          (some ⟨"r1", "u1", "v", "c",
            [("facebook:p1",
              ⟨DestStatus.failed, "T0", "T0",
                [⟨"T0", "ERROR", "Facebook posting error: boom"⟩],
                some "boom", none⟩)],
            0, TimeVal.epoch 0, DestStatus.failed, 100⟩) "facebook:p1" "T1" 5
          = Except.ok (req', msg)
        ∧ (req'.destinations.lookup "facebook:p1").map DestRecord.logs
          = some [{ timestamp := "T1", level := "INFO", message := "Task resubmitted by user" }]) :=
  ⟨by decide,
   logs_writes_replace_not_append.2.2
     ⟨"r1", "u1", "v", "c",
       [("facebook:p1",
         ⟨DestStatus.failed, "T0", "T0",
           [⟨"T0", "ERROR", "Facebook posting error: boom"⟩],
           some "boom", none⟩)],
       0, TimeVal.epoch 0, DestStatus.failed, 100⟩
     "facebook:p1" "T1" 5
     ⟨DestStatus.failed, "T0", "T0",
       [⟨"T0", "ERROR", "Facebook posting error: boom"⟩], some "boom", none⟩
     (by decide) rfl⟩

/-- C2 counterexample: resubmitting `c2req`'s failed destination leaves a
`logs` array that does not contain the entry that existed before the
resubmit — the previous array is not a prefix of the new one, so the
stored `logs` are not append-only across resubmit. -/
theorem resubmit_erases_previous_log_entries :
    (c2req.destinations.lookup "facebook:p1").map DestRecord.logs
      = some [{ timestamp := "T0", level := "ERROR", message := "Facebook posting error: boom" }]
    ∧ c2logsAfter
      = some [{ timestamp := "T1", level := "INFO", message := "Task resubmitted by user" }]
    ∧ ({ timestamp := "T0", level := "ERROR", message := "Facebook posting error: boom" } : LogEntry)
      ∉ c2logsAfter.getD [] := by
  refine ⟨rfl, rfl, ?_⟩
  decide

lemma resubmit_none_eq (destination nowIso : String) (overallNow : Nat) :
    resubmit_failed_destination none destination nowIso overallNow
      = Except.error "Upload request not found" := rfl

lemma resubmit_no_dest_eq (req : UploadRequest) (destination nowIso : String)
    (overallNow : Nat) (h : req.destinations.lookup destination = none) :
    resubmit_failed_destination (some req) destination nowIso overallNow
      = Except.error "Destination not found" := by
  simp only [resubmit_failed_destination, h]

lemma resubmit_not_failed_eq (req : UploadRequest) (destination nowIso : String)
    (overallNow : Nat) (rec : DestRecord)
    (hrec : req.destinations.lookup destination = some rec)
    (hnf : rec.status ≠ DestStatus.failed) :
    resubmit_failed_destination (some req) destination nowIso overallNow
      = Except.error "Only failed tasks can be resubmitted" := by
  simp only [resubmit_failed_destination, hrec]
  rw [if_pos hnf]

/-- C7 amended: `resubmit_failed_destination` raises (before any store
write or enqueue) when the request is absent, the destination is not among
the request's children, or the child is not `failed`; on a `failed` child
it resets the child to `queued`, `REMOVE`s its `error` attribute, REPLACES
the `logs` array with the single fresh `Task resubmitted by user` entry
(it does not append to the previous entries), enqueues exactly one job
message for that destination, and recomputes the parent overall status. -/
theorem resubmit_characterization :
    (∀ (destination nowIso : String) (overallNow : Nat),
      resubmit_failed_destination none destination nowIso overallNow
        = Except.error "Upload request not found")
    ∧ (∀ (req : UploadRequest) (destination nowIso : String)
        (overallNow : Nat),
      req.destinations.lookup destination = none →
      resubmit_failed_destination (some req) destination nowIso overallNow
        = Except.error "Destination not found")
    ∧ (∀ (req : UploadRequest) (destination nowIso : String)
        (overallNow : Nat) (rec : DestRecord),
      req.destinations.lookup destination = some rec →
      rec.status ≠ DestStatus.failed →
      resubmit_failed_destination (some req) destination nowIso overallNow
        = Except.error "Only failed tasks can be resubmitted")
    ∧ (∀ (req : UploadRequest) (destination nowIso : String)
        (overallNow : Nat) (rec : DestRecord),
      req.destinations.lookup destination = some rec →
      rec.status = DestStatus.failed →
      ∃ req',
        resubmit_failed_destination (some req) destination nowIso overallNow
          = Except.ok (req', resubmitMessage req destination)
        ∧ req'.destinations.lookup destination
          = some (resubmittedDest rec nowIso)
        ∧ (resubmittedDest rec nowIso).status = DestStatus.queued
        ∧ (resubmittedDest rec nowIso).error = none
        ∧ (resubmittedDest rec nowIso).logs
          = [{ timestamp := nowIso, level := "INFO", message := "Task resubmitted by user" }]
        ∧ req'.status = update_overall_status_derive
            (req'.destinations.map (fun p => p.2.status))) := by
  refine ⟨resubmit_none_eq, resubmit_no_dest_eq, resubmit_not_failed_eq, ?_⟩
  intro req destination nowIso overallNow rec hrec hfailed
  have hne : (withDestinations req (setDest req.destinations destination
      (resubmittedDest rec nowIso))).destinations ≠ [] := by
    simp only [withDestinations]
    exact setDest_ne_nil _ _ _ (lookup_isSome_ne_nil _ _ (by rw [hrec]; rfl))
  refine ⟨_, resubmit_ok_eq req destination nowIso overallNow rec hrec hfailed,
    resubmit_child_after req destination nowIso overallNow rec hrec,
    rfl, rfl, rfl, ?_⟩
  rw [status_update_overall _ _ hne]
  rw [destinations_update_overall]

/-- Witness for `resubmit_characterization` on a concrete request holding
one failed destination. -/
theorem resubmit_characterization_witness :
    ((⟨"r2", "u2", "v2", "c2",
        [("twitter:t1",
          ⟨DestStatus.failed, "T0", "T0",
            [⟨"T0", "INFO", "Starting async post processing"⟩,
             ⟨"T0", "ERROR", "Twitter posting error: denied"⟩],
            some "denied", none⟩)],
        0, TimeVal.epoch 0, DestStatus.failed, 100⟩ :
          UploadRequest).destinations.lookup "twitter:t1"
      = some ⟨DestStatus.failed, "T0", "T0",
          [⟨"T0", "INFO", "Starting async post processing"⟩,
           ⟨"T0", "ERROR", "Twitter posting error: denied"⟩],
          some "denied", none⟩)
    ∧ (∃ req',
        resubmit_failed_destination
          (some ⟨"r2", "u2", "v2", "c2",
            [("twitter:t1",
              ⟨DestStatus.failed, "T0", "T0",
                [⟨"T0", "INFO", "Starting async post processing"⟩,
                 ⟨"T0", "ERROR", "Twitter posting error: denied"⟩],
                some "denied", none⟩)],
            0, TimeVal.epoch 0, DestStatus.failed, 100⟩) "twitter:t1" "T9" 7
          = Except.ok (req',
              resubmitMessage
                ⟨"r2", "u2", "v2", "c2",
                  [("twitter:t1",
                    ⟨DestStatus.failed, "T0", "T0",
                      [⟨"T0", "INFO", "Starting async post processing"⟩,
                       ⟨"T0", "ERROR", "Twitter posting error: denied"⟩],
                      some "denied", none⟩)],
                  0, TimeVal.epoch 0, DestStatus.failed, 100⟩ "twitter:t1")
        ∧ req'.destinations.lookup "twitter:t1"
          = some (resubmittedDest
              ⟨DestStatus.failed, "T0", "T0",
                [⟨"T0", "INFO", "Starting async post processing"⟩,
                 ⟨"T0", "ERROR", "Twitter posting error: denied"⟩],
                some "denied", none⟩ "T9")
        ∧ (resubmittedDest
            ⟨DestStatus.failed, "T0", "T0",
              [⟨"T0", "INFO", "Starting async post processing"⟩,
               ⟨"T0", "ERROR", "Twitter posting error: denied"⟩],
              some "denied", none⟩ "T9").status = DestStatus.queued
        ∧ (resubmittedDest
            ⟨DestStatus.failed, "T0", "T0",
              [⟨"T0", "INFO", "Starting async post processing"⟩,
               ⟨"T0", "ERROR", "Twitter posting error: denied"⟩],
              some "denied", none⟩ "T9").error = none
        ∧ (resubmittedDest
            ⟨DestStatus.failed, "T0", "T0",
              [⟨"T0", "INFO", "Starting async post processing"⟩,
               ⟨"T0", "ERROR", "Twitter posting error: denied"⟩],
              some "denied", none⟩ "T9").logs
          = [{ timestamp := "T9", level := "INFO", message := "Task resubmitted by user" }]
        ∧ req'.status = update_overall_status_derive
            (req'.destinations.map (fun p => p.2.status))) :=
  ⟨by decide,
   resubmit_characterization.2.2.2
     ⟨"r2", "u2", "v2", "c2",
       [("twitter:t1",
         ⟨DestStatus.failed, "T0", "T0",
           [⟨"T0", "INFO", "Starting async post processing"⟩,
            ⟨"T0", "ERROR", "Twitter posting error: denied"⟩],
           some "denied", none⟩)],
       0, TimeVal.epoch 0, DestStatus.failed, 100⟩
     "twitter:t1" "T9" 7
     ⟨DestStatus.failed, "T0", "T0",
       [⟨"T0", "INFO", "Starting async post processing"⟩,
        ⟨"T0", "ERROR", "Twitter posting error: denied"⟩],
       some "denied", none⟩
     (by decide) rfl⟩

/-- C7 counterexample: on `c7req` the resubmitted child's logs are exactly
the single fresh entry, not the previous two entries followed by the new
one — the "appends a log entry" clause of the claim fails. -/
theorem resubmit_does_not_append_log_entry :
    c7logsAfter
      = some [{ timestamp := "T9", level := "INFO", message := "Task resubmitted by user" }]
    ∧ c7logsAfter
      ≠ some ([{ timestamp := "T0", level := "INFO", message := "Starting async post processing" },
               { timestamp := "T0", level := "ERROR", message := "Twitter posting error: denied" }]
          ++ [{ timestamp := "T9", level := "INFO", message := "Task resubmitted by user" }]) := by
  refine ⟨rfl, ?_⟩
  decide

lemma scheduler_process_post_of_not_scheduled (p : ScheduledPost)
    (co : Except String String) (now : Nat)
    (h : p.status ≠ SchedStatus.scheduled) :
    scheduler_process_post p co now = (p, none) := by
  simp [scheduler_process_post, mark_post_as_processing, if_neg h]

lemma scheduler_process_post_winner (p : ScheduledPost)
    (co : Except String String) (now : Nat)
    (h : p.status = SchedStatus.scheduled) :
    (scheduler_process_post p co now).2 = some co
    ∧ (scheduler_process_post p co now).1.status ≠ SchedStatus.scheduled := by
  cases co with
  | ok rid =>
    constructor <;>
      simp [scheduler_process_post, mark_post_as_processing, if_pos h,
        mark_post_as_posted]
  | error e =>
    constructor <;>
      simp [scheduler_process_post, mark_post_as_processing, if_pos h,
        mark_post_as_failed]

lemma scheduler_run_all_of_not_scheduled (p : ScheduledPost)
    (execs : List (Except String String × Nat))
    (h : p.status ≠ SchedStatus.scheduled) :
    scheduler_run_all p execs
      = (p, execs.map (fun _ => none)) := by
  induction execs with
  | nil => rfl
  | cons e rest ih =>
    simp [scheduler_run_all, scheduler_process_post_of_not_scheduled p e.1 e.2 h,
      ih]

lemma countP_isSome_map_none {α : Type} (l : List α) :
    (l.map (fun _ => (none : Option (Except String String)))).countP
      (fun r => r.isSome) = 0 := by
  induction l with
  | nil => rfl
  | cons a l ih => simp [List.countP_cons, ih]

/-- C5: for a row in status `scheduled`, among any number of scheduler
executions racing on it (serialized at the conditional write), exactly one
execution's `mark_post_as_processing` succeeds — it transitions the row
`scheduled → processing` and goes on to call `create_upload_request` —
while every other execution observes the conditional-check failure
(`mark_post_as_processing` returns `False`) and makes no state change to
the row. -/
theorem scheduled_post_promoted_exactly_once (p : ScheduledPost)
    (execs : List (Except String String × Nat))
    (hs : p.status = SchedStatus.scheduled) (hne : execs ≠ []) :
    ((scheduler_run_all p execs).2.countP (fun r => r.isSome) = 1)
    ∧ (∀ (q : ScheduledPost) (co : Except String String) (now : Nat),
        q.status ≠ SchedStatus.scheduled →
        scheduler_process_post q co now = (q, none))
    ∧ (∀ (co : Except String String) (now : Nat),
        (mark_post_as_processing p now).1 = true
        ∧ (mark_post_as_processing p now).2.status = SchedStatus.processing
        ∧ (scheduler_process_post p co now).2 = some co) := by
  refine ⟨?_, fun q co now h => scheduler_process_post_of_not_scheduled q co now h,
    fun co now => ⟨by simp [mark_post_as_processing, if_pos hs],
      by simp [mark_post_as_processing, if_pos hs],
      (scheduler_process_post_winner p co now hs).1⟩⟩
  obtain ⟨e, rest, rfl⟩ := List.exists_cons_of_ne_nil hne
  have hw := scheduler_process_post_winner p e.1 e.2 hs
  have hrest := scheduler_run_all_of_not_scheduled
    (scheduler_process_post p e.1 e.2).1 rest hw.2
  simp [scheduler_run_all, hrest, hw.1, List.countP_cons,
    countP_isSome_map_none]

/-- Witness for `scheduled_post_promoted_exactly_once`: two executions
race on `p0sched`; exactly one wins. -/
theorem scheduled_post_promoted_exactly_once_witness :
    (p0sched.status = SchedStatus.scheduled)
    ∧ (([(Except.ok "rid-9", 5), (Except.ok "rid-9", 6)] :
        List (Except String String × Nat)) ≠ [])
    ∧ (((scheduler_run_all p0sched
          [(Except.ok "rid-9", 5), (Except.ok "rid-9", 6)]).2.countP
          (fun r => r.isSome) = 1)
      ∧ (∀ (q : ScheduledPost) (co : Except String String) (now : Nat),
          q.status ≠ SchedStatus.scheduled →
          scheduler_process_post q co now = (q, none))
      ∧ (∀ (co : Except String String) (now : Nat),
          (mark_post_as_processing p0sched now).1 = true
          ∧ (mark_post_as_processing p0sched now).2.status
            = SchedStatus.processing
          ∧ (scheduler_process_post p0sched co now).2 = some co)) :=
  ⟨rfl, by simp,
   scheduled_post_promoted_exactly_once p0sched
     [(Except.ok "rid-9", 5), (Except.ok "rid-9", 6)] rfl (by simp)⟩

lemma post_reel_poll_go_exhaust (responses : Nat → Option String)
    (publish : IgPublishOutcome) (instagram_account_id container_id : String) :
    ∀ (fuel attempt : Nat),
      (∀ i, attempt ≤ i → i < attempt + fuel →
        responses i ≠ some "FINISHED" ∧ responses i ≠ some "ERROR") →
      post_reel_poll_go responses publish instagram_account_id container_id
          attempt fuel
        = Except.ok
            (post_reel_processing_result instagram_account_id container_id) := by
  intro fuel
  induction fuel with
  | zero => intro attempt h; rfl
  | succ n ih =>
    intro attempt h
    have hthis := h attempt (Nat.le_refl _) (by omega)
    have hrest : ∀ i, attempt + 1 ≤ i → i < attempt + 1 + n →
        responses i ≠ some "FINISHED" ∧ responses i ≠ some "ERROR" := by
      intro i h1 h2
      exact h i (by omega) (by omega)
    cases hresp : responses attempt with
    | none =>
      simp only [post_reel_poll_go, hresp]
      exact ih (attempt + 1) hrest
    | some sc =>
      rw [hresp] at hthis
      have hfin : sc ≠ "FINISHED" := by
        intro hc; exact hthis.1 (by rw [hc])
      have herr : sc ≠ "ERROR" := by
        intro hc; exact hthis.2 (by rw [hc])
      simp only [post_reel_poll_go, hresp, if_neg hfin, if_neg herr]
      exact ih (attempt + 1) hrest

/-- C6 amended: when the chunked upload succeeds and the container's
status never reaches `FINISHED` AND never reports `ERROR` within the
five-poll budget, `post_reel` returns normally with the
`status: "processing"` result carrying the container id, and the worker
consequently terminates the destination child `completed` (with that
result), not `failed`.  (If a poll reports `ERROR`, the adapter raises
instead — see the counterexample.) -/
theorem instagram_poll_exhaustion_completes (responses : Nat → Option String)
    (publish : IgPublishOutcome) (instagram_account_id container_id : String)
    (h : ∀ i, i < 5 →
      responses i ≠ some "FINISHED" ∧ responses i ≠ some "ERROR") :
    post_reel responses publish instagram_account_id container_id
      = Except.ok
          (post_reel_processing_result instagram_account_id container_id)
    ∧ (post_reel_processing_result instagram_account_id
        container_id).lookup "status" = some (JVal.s "processing")
    ∧ (post_reel_processing_result instagram_account_id
        container_id).lookup "container_id" = some (JVal.s container_id)
    ∧ (∀ (req : UploadRequest)
        (request_id user_id destination t rdump sdump : String)
        (alogs : List LogEntry),
      (req.destinations.lookup destination).isSome →
      ∃ rec',
        (handler_record req request_id user_id destination
            (AdapterOutcome.ok alogs
              (post_reel_processing_result instagram_account_id container_id))
            t rdump sdump).destinations.lookup destination = some rec'
        ∧ rec'.status = DestStatus.completed
        ∧ rec'.result
          = some (post_reel_processing_result instagram_account_id
              container_id)) := by
  refine ⟨?_, rfl, rfl, ?_⟩
  · exact post_reel_poll_go_exhaust responses publish instagram_account_id
      container_id 5 0 (fun i h1 h2 => h i (by omega))
  · intro req request_id user_id destination t rdump sdump alogs hsome
    obtain ⟨rec, hrec⟩ := Option.isSome_iff_exists.mp hsome
    have h1 := lookup_update_request_status req destination
      DestStatus.processing t
      (handler_initLogs t request_id user_id destination) none none t rec hrec
    refine ⟨_, lookup_update_request_status
      (update_request_status req destination DestStatus.processing t
        (handler_initLogs t request_id user_id destination) none none t)
      destination DestStatus.completed t
      (handler_initLogs t request_id user_id destination ++ alogs
        ++ handler_successLogs t rdump sdump) none
      (some (post_reel_processing_result instagram_account_id container_id))
      t _ h1, ?_, ?_⟩
    · rfl
    · have htr : truthyDict (some (post_reel_processing_result
          instagram_account_id container_id)) = true := by
        simp [truthyDict, post_reel_processing_result]
      simp [destWrite, htr]

/-- Witness for `instagram_poll_exhaustion_completes` with every poll
reporting `IN_PROGRESS`. -/
theorem instagram_poll_exhaustion_completes_witness :
    (∀ i, i < 5 →
      (fun _ => (some "IN_PROGRESS" : Option String)) i ≠ some "FINISHED"
      ∧ (fun _ => (some "IN_PROGRESS" : Option String)) i ≠ some "ERROR")
    ∧ (post_reel (fun _ => some "IN_PROGRESS") (IgPublishOutcome.ok "m")
          "acct1" "cont1"
        = Except.ok (post_reel_processing_result "acct1" "cont1")
      ∧ (post_reel_processing_result "acct1" "cont1").lookup "status"
        = some (JVal.s "processing")
      ∧ (post_reel_processing_result "acct1" "cont1").lookup "container_id"
        = some (JVal.s "cont1")
      ∧ (∀ (req : UploadRequest)
          (request_id user_id destination t rdump sdump : String)
          (alogs : List LogEntry),
        (req.destinations.lookup destination).isSome →
        ∃ rec',
          (handler_record req request_id user_id destination
              (AdapterOutcome.ok alogs
                (post_reel_processing_result "acct1" "cont1"))
              t rdump sdump).destinations.lookup destination = some rec'
          ∧ rec'.status = DestStatus.completed
          ∧ rec'.result = some (post_reel_processing_result "acct1" "cont1"))) :=
  ⟨by decide,
   instagram_poll_exhaustion_completes (fun _ => some "IN_PROGRESS")
     (IgPublishOutcome.ok "m") "acct1" "cont1" (by decide)⟩

/-- C6 counterexample: a run whose every status poll reports `ERROR` — so
the container never reaches `FINISHED` within the budget — makes
`post_reel` raise `InstagramPostingError` rather than return the
`status: "processing"` success result. -/
theorem instagram_error_poll_raises :
    post_reel (fun _ => some "ERROR") (IgPublishOutcome.ok "m") "acct2"
        "cont2"
      = Except.error "Instagram reported an error processing the video"
    ∧ ((List.range 5).all
        (fun i => (fun _ => (some "ERROR" : Option String)) i
          != some "FINISHED")) = true := by
  exact ⟨rfl, rfl⟩

/-- C8 amended: each requested destination with no matching Account is
dropped and the remaining ones are submitted (the intake is invoked with
exactly the filtered list, and a successful response reports those
destinations with status `queued`); but when the list is empty after
dropping unknowns the endpoint fails with `HTTPException(404, "No valid
accounts found")` — HTTP 404, not the claimed 400 input error (400 is
raised only for a missing `s3_key` or an initially empty `account_ids`
list, before any account lookup). -/
theorem post_endpoint_drops_unknowns_then_404 (store : List UploadRequest)
    (user_id : String) (s3_key : Option String) (caption : String)
    (account_ids : List String) (hasAccount : String → Bool)
    (video_url request_id nowIso : String) (timestamp : Nat)
    (enqueueOk : String → Bool)
    (hs3 : truthyStr s3_key = true) (hne : account_ids ≠ []) :
    (account_ids.filter hasAccount = [] →
      post_to_social_media store user_id s3_key caption account_ids
          hasAccount video_url request_id nowIso timestamp enqueueOk
        = (Except.error (404, "No valid accounts found"), store, []))
    ∧ (account_ids.filter hasAccount ≠ [] →
      ((post_to_social_media store user_id s3_key caption account_ids
          hasAccount video_url request_id nowIso timestamp enqueueOk).2.1
        = (create_upload_request store user_id video_url caption
            (account_ids.filter hasAccount) none request_id nowIso timestamp
            enqueueOk).1
      ∧ (post_to_social_media store user_id s3_key caption account_ids
          hasAccount video_url request_id nowIso timestamp enqueueOk).2.2
        = (create_upload_request store user_id video_url caption
            (account_ids.filter hasAccount) none request_id nowIso timestamp
            enqueueOk).2.1
      ∧ ∀ resp,
          (post_to_social_media store user_id s3_key caption account_ids
            hasAccount video_url request_id nowIso timestamp enqueueOk).1
            = Except.ok resp →
          resp.destinations = account_ids.filter hasAccount
          ∧ resp.status = "queued")) := by
  have hni : account_ids.isEmpty = false := by
    cases account_ids with
    | nil => exact absurd rfl hne
    | cons a l => rfl
  constructor
  · intro hempty
    unfold post_to_social_media
    rw [if_neg (by rw [hs3]; exact fun hc => Bool.noConfusion hc)]
    rw [if_neg (by rw [hni]; exact fun hc => Bool.noConfusion hc)]
    show (if account_ids.filter hasAccount = [] then _ else _) = _
    rw [if_pos hempty]
  · intro hfilter
    have hform : post_to_social_media store user_id s3_key caption account_ids
        hasAccount video_url request_id nowIso timestamp enqueueOk
      = (match (create_upload_request store user_id video_url caption
            (account_ids.filter hasAccount) none request_id nowIso timestamp
            enqueueOk).2.2 with
        | Except.ok item =>
          (Except.ok
            { request_id := item.request_id, status := "queued",
              message := "Upload request created for "
                ++ toString (account_ids.filter hasAccount).length
                ++ " destination(s)",
              destinations := account_ids.filter hasAccount,
              video_url := video_url, created_at := item.created_at },
          (create_upload_request store user_id video_url caption
            (account_ids.filter hasAccount) none request_id nowIso timestamp
            enqueueOk).1,
          (create_upload_request store user_id video_url caption
            (account_ids.filter hasAccount) none request_id nowIso timestamp
            enqueueOk).2.1)
        | Except.error e =>
          (Except.error (500, e),
          (create_upload_request store user_id video_url caption
            (account_ids.filter hasAccount) none request_id nowIso timestamp
            enqueueOk).1,
          (create_upload_request store user_id video_url caption
            (account_ids.filter hasAccount) none request_id nowIso timestamp
            enqueueOk).2.1)) := by
      unfold post_to_social_media
      rw [if_neg (by rw [hs3]; exact fun hc => Bool.noConfusion hc)]
      rw [if_neg (by rw [hni]; exact fun hc => Bool.noConfusion hc)]
      show (if account_ids.filter hasAccount = [] then _ else _) = _
      rw [if_neg hfilter]
    rw [hform]
    cases hc : (create_upload_request store user_id video_url caption
        (account_ids.filter hasAccount) none request_id nowIso timestamp
        enqueueOk).2.2 with
    | ok item =>
      refine ⟨rfl, rfl, ?_⟩
      intro resp hresp
      simp only [Except.ok.injEq] at hresp
      rw [← hresp]
      exact ⟨rfl, rfl⟩
    | error e =>
      refine ⟨rfl, rfl, ?_⟩
      intro resp hresp
      exact absurd hresp (by simp)

/-- Witness for `post_endpoint_drops_unknowns_then_404`: one known and one
unknown destination; the unknown is dropped, the rest submitted. -/
theorem post_endpoint_drops_unknowns_then_404_witness :
    (truthyStr (some "k.mp4") = true)
    ∧ ((["facebook:p1", "twitter:t9"] : List String) ≠ [])
    ∧ ((["facebook:p1", "twitter:t9"].filter (· == "facebook:p1") = [] →
        post_to_social_media [] "u1" (some "k.mp4") "hi"
            ["facebook:p1", "twitter:t9"] (· == "facebook:p1") "https://v"
            "rid-8" "T0" 50 (fun _ => true)
          = (Except.error (404, "No valid accounts found"), [], []))
      ∧ (["facebook:p1", "twitter:t9"].filter (· == "facebook:p1") ≠ [] →
        ((post_to_social_media [] "u1" (some "k.mp4") "hi"
            ["facebook:p1", "twitter:t9"] (· == "facebook:p1") "https://v"
            "rid-8" "T0" 50 (fun _ => true)).2.1
          = (create_upload_request [] "u1" "https://v" "hi"
              (["facebook:p1", "twitter:t9"].filter (· == "facebook:p1"))
              none "rid-8" "T0" 50 (fun _ => true)).1
        ∧ (post_to_social_media [] "u1" (some "k.mp4") "hi"
            ["facebook:p1", "twitter:t9"] (· == "facebook:p1") "https://v"
            "rid-8" "T0" 50 (fun _ => true)).2.2
          = (create_upload_request [] "u1" "https://v" "hi"
              (["facebook:p1", "twitter:t9"].filter (· == "facebook:p1"))
              none "rid-8" "T0" 50 (fun _ => true)).2.1
        ∧ ∀ resp,
            (post_to_social_media [] "u1" (some "k.mp4") "hi"
              ["facebook:p1", "twitter:t9"] (· == "facebook:p1") "https://v"
              "rid-8" "T0" 50 (fun _ => true)).1 = Except.ok resp →
            resp.destinations
              = ["facebook:p1", "twitter:t9"].filter (· == "facebook:p1")
            ∧ resp.status = "queued"))) :=
  ⟨rfl, by simp,
   post_endpoint_drops_unknowns_then_404 [] "u1" (some "k.mp4") "hi"
     ["facebook:p1", "twitter:t9"] (· == "facebook:p1") "https://v" "rid-8"
     "T0" 50 (fun _ => true) rfl (by simp)⟩

/-- C8 counterexample: with a valid `s3_key` and one requested account
that has no matching Account row, the endpoint fails with HTTP 404
(`"No valid accounts found"`), not with an HTTP 400 input error as the
claim states. -/
theorem post_endpoint_empty_after_drop_is_404 :
    (post_to_social_media [] "u1" (some "k.mp4") "hi" ["facebook:p1"]
        (fun _ => false) "https://v" "rid-7" "T0" 50 (fun _ => true)).1
      = Except.error (404, "No valid accounts found")
    ∧ (404 : Nat) ≠ 400 := by
  exact ⟨rfl, by decide⟩

/-- C9 amended: the text sent to the v2 `/tweets` endpoint is the input
unchanged when its length is at most 280 characters, and otherwise is the
first 277 characters followed by the three ASCII periods `"..."` (not the
single ellipsis character), for a total of exactly 280; in all cases the
sent text never exceeds 280 characters. -/
theorem tweet_text_truncated_to_280 (text : List Char) :
    (create_tweet_sent_text text).length ≤ 280
    ∧ (text.length ≤ 280 → create_tweet_sent_text text = text)
    ∧ (text.length > 280 →
        create_tweet_sent_text text = text.take 277 ++ ['.', '.', '.']
        ∧ (create_tweet_sent_text text).length = 280) := by
  by_cases h : text.length > 280
  · refine ⟨?_, ?_, ?_⟩
    · simp only [create_tweet_sent_text, if_pos h, List.length_append,
        List.length_take, List.length_cons, List.length_nil]
      omega
    · intro hle; omega
    · intro _
      refine ⟨by simp [create_tweet_sent_text, if_pos h], ?_⟩
      simp only [create_tweet_sent_text, if_pos h, List.length_append,
        List.length_take, List.length_cons, List.length_nil]
      omega
  · refine ⟨?_, fun _ => by simp [create_tweet_sent_text, if_neg h], ?_⟩
    · simp only [create_tweet_sent_text, if_neg h]
      omega
    · intro hgt; exact absurd hgt h

/-- Witness for `tweet_text_truncated_to_280` on a 281-character text. -/
theorem tweet_text_truncated_to_280_witness :
    ((List.replicate 281 'a').length > 280)
    ∧ (create_tweet_sent_text (List.replicate 281 'a')
        = (List.replicate 281 'a').take 277 ++ ['.', '.', '.']
      ∧ (create_tweet_sent_text (List.replicate 281 'a')).length = 280) :=
  ⟨by decide,
   (tweet_text_truncated_to_280 (List.replicate 281 'a')).2.2 (by decide)⟩

/-- C9 counterexample: on a 281-character input the sent text ends with an
ASCII period `'.'` (the code appends `"..."`), not with the ellipsis
character `'…'` the claim states. -/
theorem tweet_truncation_uses_ascii_dots_not_ellipsis :
    create_tweet_sent_text (List.replicate 281 'a')
      = List.replicate 277 'a' ++ ['.', '.', '.']
    ∧ (create_tweet_sent_text (List.replicate 281 'a')).getLast? = some '.'
    ∧ (create_tweet_sent_text (List.replicate 281 'a')).getLast? ≠ some '…' := by
  refine ⟨by decide, by decide, by decide⟩

/-- C10: `update_tokens` always overwrites `access_token` and
`updated_at`; it writes `refresh_token` / `token_expires_at` exactly when
the passed value is truthy, so an omitted (`None`) refresh token and an
omitted (`None` or `0`) expiry leave the stored fields unchanged; and it
touches no other attribute of the account row. -/
theorem update_tokens_overwrites_tokens_only (acc : SocialAccount)
    (access_token : String) (refresh_token : Option String)
    (token_expires_at : Option Int) (timestamp : Int) :
    ∀ acc', acc' = update_tokens acc access_token refresh_token
        token_expires_at timestamp →
      acc'.access_token = access_token
      ∧ acc'.updated_at = timestamp
      ∧ acc'.refresh_token
        = (if truthyStr refresh_token then refresh_token
           else acc.refresh_token)
      ∧ acc'.token_expires_at
        = (if truthyInt token_expires_at then token_expires_at
           else acc.token_expires_at)
      ∧ (refresh_token = none → acc'.refresh_token = acc.refresh_token)
      ∧ (token_expires_at = none ∨ token_expires_at = some 0 →
          acc'.token_expires_at = acc.token_expires_at)
      ∧ acc'.user_id = acc.user_id
      ∧ acc'.account_id = acc.account_id
      ∧ acc'.platform = acc.platform
      ∧ acc'.platform_user_id = acc.platform_user_id
      ∧ acc'.username = acc.username
      ∧ acc'.account_type = acc.account_type
      ∧ acc'.page_id = acc.page_id
      ∧ acc'.page_name = acc.page_name
      ∧ acc'.instagram_account_id = acc.instagram_account_id
      ∧ acc'.profile_data = acc.profile_data
      ∧ acc'.created_at = acc.created_at
      ∧ acc'.is_active = acc.is_active := by
  intro acc' h
  have hb : ∀ (b : Bool), b = false ∨ b = true := fun b => by
    cases b
    · exact Or.inl rfl
    · exact Or.inr rfl
  subst h
  rcases hb (truthyStr refresh_token) with h1 | h1 <;>
    rcases hb (truthyInt token_expires_at) with h2 | h2
  · simp [update_tokens, h1, h2]
  · simp [update_tokens, h1, h2]
    rintro (hn | hn) <;> rw [hn] at h2 <;> simp [truthyInt] at h2
  · simp [update_tokens, h1, h2]
    intro hn; rw [hn] at h1; simp [truthyStr] at h1
  · simp [update_tokens, h1, h2]
    constructor
    · intro hn; rw [hn] at h1; simp [truthyStr] at h1
    · rintro (hn | hn) <;> rw [hn] at h2 <;> simp [truthyInt] at h2

/-- Witness for `update_tokens_overwrites_tokens_only`: refreshing only
the access token (refresh token and expiry omitted) leaves the stored
refresh token and expiry unchanged. -/
theorem update_tokens_overwrites_tokens_only_witness :
    (update_tokens acc0 "new-token" none none 99 : SocialAccount)
        = update_tokens acc0 "new-token" none none 99
    ∧ ((update_tokens acc0 "new-token" none none 99).access_token
        = "new-token"
      ∧ (update_tokens acc0 "new-token" none none 99).updated_at = 99
      ∧ (update_tokens acc0 "new-token" none none 99).refresh_token
        = (if truthyStr none then none else acc0.refresh_token)
      ∧ (update_tokens acc0 "new-token" none none 99).token_expires_at
        = (if truthyInt none then none else acc0.token_expires_at)
      ∧ ((none : Option String) = none →
          (update_tokens acc0 "new-token" none none 99).refresh_token
            = acc0.refresh_token)
      ∧ ((none : Option Int) = none ∨ (none : Option Int) = some 0 →
          (update_tokens acc0 "new-token" none none 99).token_expires_at
            = acc0.token_expires_at)
      ∧ (update_tokens acc0 "new-token" none none 99).user_id = acc0.user_id
      ∧ (update_tokens acc0 "new-token" none none 99).account_id
        = acc0.account_id
      ∧ (update_tokens acc0 "new-token" none none 99).platform
        = acc0.platform
      ∧ (update_tokens acc0 "new-token" none none 99).platform_user_id
        = acc0.platform_user_id
      ∧ (update_tokens acc0 "new-token" none none 99).username
        = acc0.username
      ∧ (update_tokens acc0 "new-token" none none 99).account_type
        = acc0.account_type
      ∧ (update_tokens acc0 "new-token" none none 99).page_id = acc0.page_id
      ∧ (update_tokens acc0 "new-token" none none 99).page_name
        = acc0.page_name
      ∧ (update_tokens acc0 "new-token" none none 99).instagram_account_id
        = acc0.instagram_account_id
      ∧ (update_tokens acc0 "new-token" none none 99).profile_data
        = acc0.profile_data
      ∧ (update_tokens acc0 "new-token" none none 99).created_at
        = acc0.created_at
      ∧ (update_tokens acc0 "new-token" none none 99).is_active
        = acc0.is_active) :=
  ⟨rfl,
   update_tokens_overwrites_tokens_only acc0 "new-token" none none 99
     (update_tokens acc0 "new-token" none none 99) rfl⟩
